import Mathlib

/-!
# Verification development for `logger/logger.go` (mesos-task-ranker)

The Go package `logger` configures one process-wide logrus logger.  `Configure`
opens two timestamped log files and registers two writer hooks; `Done` closes
the files.  The package is stateful and talks to the operating system, so the
embedding passes an explicit `State` (the three package-level variables plus a
model of the world: clock, descriptor table, the descriptors of the Go runtime
poller, heap of `os.File` objects, and a trace of the `os` calls made).
-/

namespace Logger

/-! ## Time and number formatting -/

/-- A `time.Time` value: seconds since the Unix epoch and nanoseconds within the second. -/
structure Time where
  sec : Int
  nsec : Nat
  deriving DecidableEq, Repr

/-- Two's-complement wrap of an integer to the range of Go's `int64`. -/
def wrapInt64 (x : Int) : Int := (x + 2 ^ 63) % 2 ^ 64 - 2 ^ 63

/-- Go's `Time.UnixNano`: `sec*1e9 + nsec` computed in `int64` arithmetic. -/
def Time.UnixNano (t : Time) : Int := wrapInt64 (t.sec * 1000000000 + (t.nsec : Int))

/-- Digit loop of the integer formatter: emits the base-10 digits of `u` in front of `acc`,
least significant digit first (so the most significant one ends up at the head). -/
def fmtDigits : Nat → Nat → List Char → List Char
  | 0, _, acc => acc
  | fuel + 1, u, acc =>
    if u < 10 then Nat.digitChar u :: acc
    else fmtDigits fuel (u / 10) (Nat.digitChar (u % 10) :: acc)

/-- Base-10 digits of a natural number (`"0"` for zero, no leading zeros otherwise). -/
def decimalNat (u : Nat) : List Char := fmtDigits (u + 1) u []

/-- Base-10 rendering of a signed integer, as the verb `%v` prints an `int64`:
a minus sign for negative values followed by the digits of the magnitude. -/
def decimalChars (n : Int) : List Char :=
  if n < 0 then '-' :: decimalNat n.natAbs else decimalNat n.natAbs

/-- The rendering as a string. -/
def decimal (n : Int) : String := String.mk (decimalChars n)

/-- Value of a decimal digit character. -/
def digitVal (c : Char) : Nat := c.toNat - 48

/-- Value of a run of decimal digits, most significant first. -/
def valOf (l : List Char) : Nat := l.foldl (fun a c => 10 * a + digitVal c) 0

/-- Reads a base-10 rendering back: an optional leading minus sign, then digits. -/
def readDecimal (l : List Char) : Int :=
  if l.head? = some '-' then -((valOf l.tail : Nat) : Int) else ((valOf l : Nat) : Int)

/-- The call `fmt.Sprintf("%s_%v.log", pfx, n)` with a string and an `int64` argument. -/
def Sprintf (pfx : String) (n : Int) : String := pfx ++ "_" ++ decimal n ++ ".log"

/-! ## Constants of the package -/

/-- Go's `time.RFC3339Nano` layout. -/
def RFC3339Nano : String := "2006-01-02T15:04:05.999999999Z07:00"

def timestampFormat : String := RFC3339Nano

def taskRankerLogFilePrefix : String := "task_ranker_logs"

def taskRankingResultsLogFilePrefix : String := "task_ranking_results"

def logFilePermissions : Nat := 0o666

/-! Flag values of package `os` (those of `syscall` on Linux). -/

def O_RDONLY : Nat := 0x0
def O_WRONLY : Nat := 0x1
def O_RDWR : Nat := 0x2
def O_CREATE : Nat := 0x40
def O_EXCL : Nat := 0x80
def O_TRUNC : Nat := 0x200
def O_APPEND : Nat := 0x400

/-! ## Errors -/

/-- Underlying cause carried by an `*os.PathError`. -/
inductive Cause where
  | errno (code : Nat)
  | closed
  deriving DecidableEq, Repr

/-- Go `error` values that occur in this package. -/
inductive GoError where
  | pathError (op : String) (path : String) (cause : Cause)
  | invalid
  | wrap (cause : GoError) (message : String)
  deriving DecidableEq, Repr

/-- The call `errors.Wrap(err, message)`: nil stays nil, otherwise the error is annotated. -/
def errors.Wrap (err : Option GoError) (message : String) : Option GoError :=
  match err with
  | none => none
  | some e => some (GoError.wrap e message)

/-! ## The world: clock, descriptor table, file objects -/

/-- An `os.File` object on the heap. -/
structure FileObj where
  name : String
  fd : Nat
  closed : Bool
  deriving DecidableEq, Repr

/-- Calls into package `os` made by the program, in order. -/
inductive Call where
  | openFile (name : String) (flag : Nat) (perm : Nat)
  | close (file : Nat)
  deriving DecidableEq, Repr

/-- The environment.  `oracle k` is the result of the `k`-th `open` or `close` system call
(`none` is success, `some e` is failure with errno `e`); `step` counts those calls made so
far.  `fdTable` holds the descriptors open in the process, `pollerInit` tells whether the Go
runtime has set up its poller already.  A `*os.File` is an index into `heap`. -/
structure World where
  clock : Time
  oracle : Nat → Option Nat
  step : Nat
  fdTable : List Nat
  pollerInit : Bool
  heap : List FileObj
  trace : List Call

/-- Lowest descriptor number not in use. -/
def lowestFree (fds : List Nat) : Nat :=
  ((List.range (fds.length + 1)).find? (fun n => decide (n ∉ fds))).getD fds.length

/-- Descriptors that the Go runtime opens for itself when a file that has just received
descriptor `fd` is registered with the poller: none when the poller is set up already,
otherwise an epoll descriptor and then an eventfd, each on the lowest free number.  The
runtime never closes them. -/
def pollerFds (w : World) (fd : Nat) : List Nat :=
  if w.pollerInit then []
  else
    [lowestFree (lowestFree (fd :: w.fdTable) :: fd :: w.fdTable),
      lowestFree (fd :: w.fdTable)]

/-- The call `time.Now()`. -/
def time.Now (w : World) : Time := w.clock

/-- The call `os.OpenFile(name, flag, perm)`.  On failure it returns a nil file and a
`*PathError`.  On success the `open` system call has handed out the lowest free descriptor
and the new file object is registered with the runtime poller, which on the first such
registration of the process opens the poller's own descriptors (`pollerFds`). -/
def os.OpenFile (name : String) (flag perm : Nat) (w : World) :
    (Option Nat × Option GoError) × World :=
  let w1 : World := { w with step := w.step + 1, trace := w.trace ++ [Call.openFile name flag perm] }
  match w.oracle w.step with
  | some e => ((none, some (GoError.pathError "open" name (Cause.errno e))), w1)
  | none =>
    let fd := lowestFree w.fdTable
    ((some w.heap.length, none),
      { w1 with
        fdTable := pollerFds w fd ++ fd :: w.fdTable
        pollerInit := true
        heap := w.heap ++ [FileObj.mk name fd false] })

/-- The method `(*os.File).Close` on a non-nil receiver `p`.  Closing a file that is already
closed fails with `ErrClosed` and makes no system call; otherwise the descriptor is released
and the result of `close(2)` is reported. -/
def File.Close (p : Nat) (w : World) : Option GoError × World :=
  let w1 : World := { w with trace := w.trace ++ [Call.close p] }
  match w.heap[p]? with
  | none => (some GoError.invalid, w1)
  | some f =>
    if f.closed then (some (GoError.pathError "close" f.name Cause.closed), w1)
    else
      let w2 : World :=
        { w1 with
          step := w.step + 1
          fdTable := w.fdTable.filter (fun d => decide (d ≠ f.fd))
          heap := w.heap.set p { f with closed := true } }
      match w.oracle w.step with
      | some e => (some (GoError.pathError "close" f.name (Cause.errno e)), w2)
      | none => (none, w2)

/-! ## The logrus logger -/

inductive Output where
  | stderr
  | discard
  deriving DecidableEq, Repr

inductive Level where
  | panicLevel
  | fatalLevel
  | errorLevel
  | warnLevel
  | infoLevel
  | debugLevel
  | traceLevel
  deriving DecidableEq, Repr

/-- The fields of `logrus.TextFormatter` relevant here; unset fields are zero values. -/
structure TextFormatter where
  ForceColors : Bool := false
  DisableColors : Bool := false
  DisableTimestamp : Bool := false
  FullTimestamp : Bool := false
  TimestampFormat : String := ""
  deriving DecidableEq, Repr

/-- The fields of `logrus.JSONFormatter` relevant here; unset fields are zero values. -/
structure JSONFormatter where
  TimestampFormat : String := ""
  DisableTimestamp : Bool := false
  DisableHTMLEscape : Bool := false
  PrettyPrint : Bool := false
  deriving DecidableEq, Repr

inductive Formatter where
  | text (f : TextFormatter)
  | json (f : JSONFormatter)
  deriving DecidableEq, Repr

/-- Modelled from the spec: the hook type built by `newWriterHook`, whose source file is not
part of the fragment.  A routing hook "holds a formatter, a destination file handle (shared
reference, not owned), and a set of field names used as the write-selection predicate". -/
structure WriterHook where
  formatter : Formatter
  writer : Option Nat
  selectors : List String
  deriving DecidableEq, Repr

/-- Modelled from the spec: `newWriterHook(formatter, writer, topics...)`, "constructed with
(formatter, destination file, variadic list of selector field names)". -/
def newWriterHook (formatter : Formatter) (writer : Option Nat) (topics : List String) :
    WriterHook :=
  { formatter := formatter, writer := writer, selectors := topics }

/-- Modelled from the spec: the selection predicate of a routing hook, "the hook writes the
record if and only if the record's field map contains at least one key from its selector
set, OR the selector set is empty".  A record is represented by the keys of its field map. -/
def WriterHook.selects (h : WriterHook) (fieldKeys : List String) : Bool :=
  h.selectors.isEmpty || h.selectors.any (fun k => fieldKeys.contains k)

/-- The state of a `*logrus.Logger` that `Configure` touches. -/
structure LogrusLogger where
  Out : Output
  Level : Level
  Hooks : List WriterHook
  deriving DecidableEq, Repr

/-- The constructor `logrus.New()`: standard error, info level, no hooks. -/
def logrus.New : LogrusLogger := { Out := Output.stderr, Level := Level.infoLevel, Hooks := [] }

def LogrusLogger.SetOutput (l : LogrusLogger) (o : Output) : LogrusLogger := { l with Out := o }

def LogrusLogger.SetLevel (l : LogrusLogger) (v : Logger.Level) : LogrusLogger := { l with Level := v }

/-- The method `AddHook`: the hook is appended after the hooks already registered. -/
def LogrusLogger.AddHook (l : LogrusLogger) (h : WriterHook) : LogrusLogger :=
  { l with Hooks := l.Hooks ++ [h] }

/-! ## The package `logger` -/

/-- The package-level variables `log`, `taskRankerLogFile`, `taskRankingResultsLogFile`,
together with the world. -/
structure State where
  world : World
  log : LogrusLogger
  taskRankerLogFile : Option Nat
  taskRankingResultsLogFile : Option Nat

/-- Embedding of `createTaskRankerLogFile`. -/
def createTaskRankerLogFile (now : Time) (w : World) : (Option Nat × Option GoError) × World :=
  let filename := Sprintf taskRankerLogFilePrefix now.UnixNano
  let r := os.OpenFile filename (O_CREATE ||| O_WRONLY) logFilePermissions w
  let err := if r.1.2 ≠ none then
      errors.Wrap r.1.2 "failed to create task ranker operations log file"
    else r.1.2
  ((r.1.1, err), r.2)

/-- Embedding of `createTaskRankingResultsLogFile`. -/
def createTaskRankingResultsLogFile (now : Time) (w : World) :
    (Option Nat × Option GoError) × World :=
  let filename := Sprintf taskRankingResultsLogFilePrefix now.UnixNano
  let r := os.OpenFile filename (O_CREATE ||| O_WRONLY) logFilePermissions w
  let err := if r.1.2 ≠ none then
      errors.Wrap r.1.2 "failed to create task ranker log file"
    else r.1.2
  ((r.1.1, err), r.2)

/-- Embedding of `Configure`.  Returns the error (nil is `none`) and the new state. -/
def Configure (s : State) : Option GoError × State :=
  let log1 := s.log.SetOutput Output.discard
  let log2 := log1.SetLevel Level.infoLevel
  let now := time.Now s.world
  let r1 := createTaskRankerLogFile now s.world
  let s1 : State := { s with world := r1.2, log := log2, taskRankerLogFile := r1.1.1 }
  match r1.1.2 with
  | some err => (some err, s1)
  | none =>
    let r2 := createTaskRankingResultsLogFile now s1.world
    let s2 : State := { s1 with world := r2.2, taskRankingResultsLogFile := r2.1.1 }
    match r2.1.2 with
    | some err => (some err, s2)
    | none =>
      let jsonFormatter : JSONFormatter :=
        { DisableHTMLEscape := true, TimestampFormat := timestampFormat }
      let textFormatter : TextFormatter :=
        { DisableColors := true, FullTimestamp := true, TimestampFormat := timestampFormat }
      let log3 := s2.log.AddHook
        (newWriterHook (Formatter.text textFormatter) s2.taskRankerLogFile
          ["stage", "query", "query_result"])
      let log4 := log3.AddHook
        (newWriterHook (Formatter.json jsonFormatter) s2.taskRankingResultsLogFile
          ["task_ranking_results"])
      (none, { s2 with log := log4 })

/-- Embedding of `Done`.  Returns the error (nil is `none`) and the new state. -/
def Done (s : State) : Option GoError × State :=
  let r1 : Option GoError × World :=
    match s.taskRankerLogFile with
    | some f =>
      let c := File.Close f s.world
      let err := if c.1 ≠ none then errors.Wrap c.1 "failed to close task ranker log file" else c.1
      (err, c.2)
    | none => (none, s.world)
  let r2 : Option GoError × World :=
    match s.taskRankingResultsLogFile with
    | some f =>
      let c := File.Close f r1.2
      let err := if c.1 ≠ none then
          errors.Wrap c.1 "failed to close tank ranking results log file"
        else c.1
      (err, c.2)
    | none => r1
  (r2.1, { s with world := r2.2 })

/-! ## Unix permission bits (for reading `logFilePermissions`) -/

inductive Who where
  | owner
  | group
  | others
  deriving DecidableEq, Repr

inductive Access where
  | read
  | write
  | execute
  deriving DecidableEq, Repr

/-- Position of the permission bit for a class of users and a kind of access:
`rwxrwxrwx` from bit 8 down to bit 0. -/
def permBit (who : Who) (a : Access) : Nat :=
  (match who with
    | Who.owner => 6
    | Who.group => 3
    | Who.others => 0) +
  (match a with
    | Access.read => 2
    | Access.write => 1
    | Access.execute => 0)

/-- Whether file mode `perm` grants access `a` to `who`. -/
def grants (perm : Nat) (who : Who) (a : Access) : Bool := perm.testBit (permBit who a)

/-- Whether a flag word has all bits of `flag` set. -/
def hasFlag (word flag : Nat) : Bool := word &&& flag == flag

/-- The file name of the most recent call, when that call is an `os.OpenFile`. -/
def lastOpened (w : World) : Option String :=
  match w.trace.getLast? with
  | some (Call.openFile name _ _) => some name
  | _ => none

/-! ## Sample inputs -/

/-- A fresh process in which every system call succeeds: descriptors 0, 1, 2 are in use and
the runtime poller is not set up yet. -/
def sampleWorld : World :=
  { clock := Time.mk 1600000000 123456789
    oracle := fun _ => none
    step := 0
    fdTable := [0, 1, 2]
    pollerInit := false
    heap := []
    trace := [] }

/-- The same process after the runtime poller has been set up (descriptors 3 and 4). -/
def polledWorld : World :=
  { sampleWorld with fdTable := [4, 3, 0, 1, 2], pollerInit := true }

/-- The package state at program start. -/
def initState (w : World) : State :=
  { world := w, log := logrus.New, taskRankerLogFile := none, taskRankingResultsLogFile := none }

/-- A world in which exactly the system call number `k` fails, with errno `e`. -/
def failingAt (k e : Nat) : World :=
  { sampleWorld with oracle := fun i => if i = k then some e else none }

/-- The state after a successful `Configure` in a world where the third system call, the
first `close`, fails with errno 5 and every other call succeeds. -/
def firstCloseFails : State := (Configure (initState (failingAt 2 5))).2

/-! ## Lemmas on the world model and on number formatting -/

theorem lowestFree_not_mem (fds : List Nat) : lowestFree fds ∉ fds := by
  unfold lowestFree
  cases h : (List.range (fds.length + 1)).find? (fun n => decide (n ∉ fds)) with
  | some n =>
    have := List.find?_some h
    simpa using this
  | none =>
    exfalso
    rw [List.find?_eq_none] at h
    have hsub : List.range (fds.length + 1) ⊆ fds := by
      intro x hx
      have := h x hx
      simpa using this
    have := (List.subperm_of_subset (List.nodup_range _) hsub).length_le
    simp at this

/-- The poller's descriptors are fresh: none of them is the file's descriptor or one that was
open before. -/
theorem pollerFds_fresh (w : World) (fd d : Nat) (h : d ∈ pollerFds w fd) :
    d ≠ fd ∧ d ∉ w.fdTable := by
  unfold pollerFds at h
  by_cases hp : w.pollerInit = true
  · simp [hp] at h
  · simp only [hp, Bool.false_eq_true, if_false, List.mem_cons, List.mem_singleton,
      List.not_mem_nil, or_false] at h
    have h1 := lowestFree_not_mem (fd :: w.fdTable)
    have h2 := lowestFree_not_mem (lowestFree (fd :: w.fdTable) :: fd :: w.fdTable)
    simp only [List.mem_cons, not_or] at h1 h2
    rcases h with h | h
    · rw [h]; exact ⟨h2.2.1, h2.2.2⟩
    · rw [h]; exact h1

theorem pollerFds_of_init (w : World) (fd : Nat) (h : w.pollerInit = true) :
    pollerFds w fd = [] := by
  simp [pollerFds, h]

theorem digitVal_digitChar (d : Nat) (h : d < 10) : digitVal (Nat.digitChar d) = d := by
  interval_cases d <;> rfl

theorem digitChar_ne_minus (d : Nat) (h : d < 10) : Nat.digitChar d ≠ '-' := by
  interval_cases d <;> decide

theorem valOf_snoc (ds : List Char) (c : Char) :
    valOf (ds ++ [c]) = 10 * valOf ds + digitVal c := by
  simp [valOf, List.foldl_append]

/-- The digit loop, given enough fuel, puts in front of the accumulator a non-empty run of
digit characters whose value is the number formatted. -/
theorem fmtDigits_spec (fuel : Nat) : ∀ (u : Nat) (acc : List Char), u < fuel →
    ∃ ds : List Char, fmtDigits fuel u acc = ds ++ acc ∧ valOf ds = u ∧ ds ≠ [] ∧
      ∀ c ∈ ds, c ≠ '-' := by
  induction fuel with
  | zero => intro u acc h; omega
  | succ fuel ih =>
    intro u acc h
    by_cases hu : u < 10
    · refine ⟨[Nat.digitChar u], by simp [fmtDigits, hu], ?_, by simp, ?_⟩
      · simp [valOf, digitVal_digitChar u hu]
      · intro c hc
        simp only [List.mem_singleton] at hc
        rw [hc]
        exact digitChar_ne_minus u hu
    · obtain ⟨ds, h1, h2, _, h4⟩ := ih (u / 10) (Nat.digitChar (u % 10) :: acc) (by omega)
      have hm : u % 10 < 10 := Nat.mod_lt _ (by omega)
      refine ⟨ds ++ [Nat.digitChar (u % 10)], by simp [fmtDigits, hu, h1], ?_, by simp, ?_⟩
      · rw [valOf_snoc, h2, digitVal_digitChar _ hm]
        omega
      · intro c hc
        rcases List.mem_append.1 hc with hc | hc
        · exact h4 c hc
        · simp only [List.mem_singleton] at hc
          rw [hc]
          exact digitChar_ne_minus _ hm

theorem decimalNat_spec (u : Nat) :
    valOf (decimalNat u) = u ∧ decimalNat u ≠ [] ∧ ∀ c ∈ decimalNat u, c ≠ '-' := by
  obtain ⟨ds, h1, h2, h3, h4⟩ := fmtDigits_spec (u + 1) u [] (by omega)
  have : decimalNat u = ds := by simp [decimalNat, h1]
  rw [this]
  exact ⟨h2, h3, h4⟩

theorem decimalNat_head (u : Nat) : (decimalNat u).head? ≠ some '-' := by
  obtain ⟨_, h2, h3⟩ := decimalNat_spec u
  intro h
  cases hl : decimalNat u with
  | nil => exact h2 hl
  | cons c t =>
    rw [hl] at h h3
    simp only [List.head?_cons, Option.some.injEq] at h
    exact h3 c (by simp) h

/-- Reading back the rendering of an integer gives the integer. -/
theorem readDecimal_decimalChars (n : Int) : readDecimal (decimalChars n) = n := by
  unfold decimalChars readDecimal
  by_cases hn : n < 0
  · simp only [hn, if_true, List.head?_cons, List.tail_cons, (decimalNat_spec _).1]
    omega
  · simp only [hn, if_false, decimalNat_head, (decimalNat_spec _).1]
    omega

theorem decimal_injective (n m : Int) (h : decimal n = decimal m) : n = m := by
  have h1 : decimalChars n = decimalChars m := congrArg String.data h
  rw [← readDecimal_decimalChars n, ← readDecimal_decimalChars m, h1]

theorem Sprintf_data (pfx : String) (n : Int) :
    (Sprintf pfx n).data = pfx.data ++ ('_' :: (decimalChars n ++ ['.', 'l', 'o', 'g'])) := by
  simp [Sprintf, decimal, String.data_append]

theorem Sprintf_injective (pfx : String) (n m : Int) (h : Sprintf pfx n = Sprintf pfx m) :
    n = m := by
  have hd := congrArg String.data h
  rw [Sprintf_data, Sprintf_data] at hd
  have h1 := List.append_cancel_left hd
  simp only [List.cons.injEq, true_and] at h1
  have h2 := List.append_cancel_right h1
  rw [← readDecimal_decimalChars n, ← readDecimal_decimalChars m, h2]

theorem Sprintf_kinds_ne (n m : Int) :
    Sprintf taskRankerLogFilePrefix n ≠ Sprintf taskRankingResultsLogFilePrefix m := by
  intro h
  have hd := congrArg String.data h
  rw [Sprintf_data, Sprintf_data] at hd
  have e1 : taskRankerLogFilePrefix.data =
      ['t', 'a', 's', 'k', '_', 'r', 'a', 'n', 'k', 'e', 'r', '_', 'l', 'o', 'g', 's'] := by
    decide
  have e2 : taskRankingResultsLogFilePrefix.data =
      ['t', 'a', 's', 'k', '_', 'r', 'a', 'n', 'k', 'i', 'n', 'g', '_', 'r', 'e', 's', 'u',
        'l', 't', 's'] := by
    decide
  rw [e1, e2] at hd
  simp at hd

/-! ## Lemmas on file creation -/

theorem createTaskRankerLogFile_trace (now : Time) (w : World) :
    (createTaskRankerLogFile now w).2.trace = w.trace ++
      [Call.openFile (Sprintf taskRankerLogFilePrefix now.UnixNano) (O_CREATE ||| O_WRONLY)
        logFilePermissions] := by
  simp only [createTaskRankerLogFile, os.OpenFile]
  cases w.oracle w.step <;> rfl

theorem createTaskRankingResultsLogFile_trace (now : Time) (w : World) :
    (createTaskRankingResultsLogFile now w).2.trace = w.trace ++
      [Call.openFile (Sprintf taskRankingResultsLogFilePrefix now.UnixNano)
        (O_CREATE ||| O_WRONLY) logFilePermissions] := by
  simp only [createTaskRankingResultsLogFile, os.OpenFile]
  cases w.oracle w.step <;> rfl

theorem createTaskRankerLogFile_err (now : Time) (w : World) :
    (createTaskRankerLogFile now w).1.2 =
      (w.oracle w.step).map (fun e =>
        GoError.wrap
          (GoError.pathError "open" (Sprintf taskRankerLogFilePrefix now.UnixNano) (Cause.errno e))
          "failed to create task ranker operations log file") := by
  simp only [createTaskRankerLogFile, os.OpenFile]
  cases w.oracle w.step <;> simp [errors.Wrap]

theorem createTaskRankingResultsLogFile_err (now : Time) (w : World) :
    (createTaskRankingResultsLogFile now w).1.2 =
      (w.oracle w.step).map (fun e =>
        GoError.wrap
          (GoError.pathError "open" (Sprintf taskRankingResultsLogFilePrefix now.UnixNano)
            (Cause.errno e))
          "failed to create task ranker log file") := by
  simp only [createTaskRankingResultsLogFile, os.OpenFile]
  cases w.oracle w.step <;> simp [errors.Wrap]

/-- A successful creation of the task-ranker log file: the new file object sits at the end of
the heap, open, on the lowest free descriptor. -/
theorem createTaskRankerLogFile_ok (now : Time) (w : World) (h : w.oracle w.step = none) :
    (createTaskRankerLogFile now w).1.1 = some w.heap.length ∧
    (createTaskRankerLogFile now w).2.heap = w.heap ++
      [FileObj.mk (Sprintf taskRankerLogFilePrefix now.UnixNano) (lowestFree w.fdTable) false] ∧
    (createTaskRankerLogFile now w).2.fdTable =
      pollerFds w (lowestFree w.fdTable) ++ lowestFree w.fdTable :: w.fdTable ∧
    (createTaskRankerLogFile now w).2.step = w.step + 1 ∧
    (createTaskRankerLogFile now w).2.oracle = w.oracle ∧
    (createTaskRankerLogFile now w).2.pollerInit = true := by
  simp only [createTaskRankerLogFile, os.OpenFile, h]
  simp

theorem createTaskRankingResultsLogFile_ok (now : Time) (w : World)
    (h : w.oracle w.step = none) :
    (createTaskRankingResultsLogFile now w).1.1 = some w.heap.length ∧
    (createTaskRankingResultsLogFile now w).2.heap = w.heap ++
      [FileObj.mk (Sprintf taskRankingResultsLogFilePrefix now.UnixNano)
        (lowestFree w.fdTable) false] ∧
    (createTaskRankingResultsLogFile now w).2.fdTable =
      pollerFds w (lowestFree w.fdTable) ++ lowestFree w.fdTable :: w.fdTable ∧
    (createTaskRankingResultsLogFile now w).2.step = w.step + 1 ∧
    (createTaskRankingResultsLogFile now w).2.oracle = w.oracle ∧
    (createTaskRankingResultsLogFile now w).2.pollerInit = true := by
  simp only [createTaskRankingResultsLogFile, os.OpenFile, h]
  simp

/-- A failed creation yields a nil handle and leaves heap and descriptor table alone. -/
theorem createTaskRankerLogFile_fail (now : Time) (w : World) (e : Nat)
    (h : w.oracle w.step = some e) :
    (createTaskRankerLogFile now w).1.1 = none ∧
    (createTaskRankerLogFile now w).2.heap = w.heap ∧
    (createTaskRankerLogFile now w).2.fdTable = w.fdTable := by
  simp only [createTaskRankerLogFile, os.OpenFile, h]
  simp

theorem createTaskRankingResultsLogFile_fail (now : Time) (w : World) (e : Nat)
    (h : w.oracle w.step = some e) :
    (createTaskRankingResultsLogFile now w).1.1 = none ∧
    (createTaskRankingResultsLogFile now w).2.heap = w.heap ∧
    (createTaskRankingResultsLogFile now w).2.fdTable = w.fdTable := by
  simp only [createTaskRankingResultsLogFile, os.OpenFile, h]
  simp

/-! ## Lemmas on `Configure` -/

/-- First creation fails: `Configure` stops there. -/
theorem Configure_first_fails (s : State) (err : GoError)
    (h : (createTaskRankerLogFile (time.Now s.world) s.world).1.2 = some err) :
    Configure s = (some err,
      { s with
        world := (createTaskRankerLogFile (time.Now s.world) s.world).2
        log := (s.log.SetOutput Output.discard).SetLevel Level.infoLevel
        taskRankerLogFile := (createTaskRankerLogFile (time.Now s.world) s.world).1.1 }) := by
  simp only [Configure, h]

/-- First creation succeeds, second fails: `Configure` stops after the second. -/
theorem Configure_second_fails (s : State) (err : GoError)
    (h1 : (createTaskRankerLogFile (time.Now s.world) s.world).1.2 = none)
    (h2 : (createTaskRankingResultsLogFile (time.Now s.world)
      (createTaskRankerLogFile (time.Now s.world) s.world).2).1.2 = some err) :
    Configure s = (some err,
      { world := (createTaskRankingResultsLogFile (time.Now s.world)
          (createTaskRankerLogFile (time.Now s.world) s.world).2).2
        log := (s.log.SetOutput Output.discard).SetLevel Level.infoLevel
        taskRankerLogFile := (createTaskRankerLogFile (time.Now s.world) s.world).1.1
        taskRankingResultsLogFile := (createTaskRankingResultsLogFile (time.Now s.world)
          (createTaskRankerLogFile (time.Now s.world) s.world).2).1.1 }) := by
  simp only [Configure, h1, h2]

/-- Both creations succeed: `Configure` registers the two hooks. -/
theorem Configure_succeeds (s : State)
    (h1 : (createTaskRankerLogFile (time.Now s.world) s.world).1.2 = none)
    (h2 : (createTaskRankingResultsLogFile (time.Now s.world)
      (createTaskRankerLogFile (time.Now s.world) s.world).2).1.2 = none) :
    Configure s = (none,
      { world := (createTaskRankingResultsLogFile (time.Now s.world)
          (createTaskRankerLogFile (time.Now s.world) s.world).2).2
        log :=
          { Out := Output.discard
            Level := Level.infoLevel
            Hooks := s.log.Hooks ++
              [ WriterHook.mk
                  (Formatter.text
                    { DisableColors := true, FullTimestamp := true,
                      TimestampFormat := RFC3339Nano })
                  (createTaskRankerLogFile (time.Now s.world) s.world).1.1
                  ["stage", "query", "query_result"],
                WriterHook.mk
                  (Formatter.json { DisableHTMLEscape := true, TimestampFormat := RFC3339Nano })
                  (createTaskRankingResultsLogFile (time.Now s.world)
                    (createTaskRankerLogFile (time.Now s.world) s.world).2).1.1
                  ["task_ranking_results"] ] }
        taskRankerLogFile := (createTaskRankerLogFile (time.Now s.world) s.world).1.1
        taskRankingResultsLogFile := (createTaskRankingResultsLogFile (time.Now s.world)
          (createTaskRankerLogFile (time.Now s.world) s.world).2).1.1 }) := by
  simp only [Configure, h1, h2]
  simp [LogrusLogger.AddHook, LogrusLogger.SetLevel, LogrusLogger.SetOutput, newWriterHook,
    timestampFormat]

theorem lastOpened_createTaskRankerLogFile (now : Time) (w : World) :
    lastOpened (createTaskRankerLogFile now w).2 =
      some (Sprintf taskRankerLogFilePrefix now.UnixNano) := by
  simp [lastOpened, createTaskRankerLogFile_trace]

theorem lastOpened_createTaskRankingResultsLogFile (now : Time) (w : World) :
    lastOpened (createTaskRankingResultsLogFile now w).2 =
      some (Sprintf taskRankingResultsLogFilePrefix now.UnixNano) := by
  simp [lastOpened, createTaskRankingResultsLogFile_trace]

/-- The calls `Configure` makes: one `OpenFile`, and a second one exactly when the first
succeeded; both names carry the timestamp read at the start. -/
theorem Configure_trace (s : State) :
    (Configure s).2.world.trace = s.world.trace ++
      (Call.openFile (Sprintf taskRankerLogFilePrefix (time.Now s.world).UnixNano)
          (O_CREATE ||| O_WRONLY) logFilePermissions ::
        if (createTaskRankerLogFile (time.Now s.world) s.world).1.2 = none then
          [Call.openFile (Sprintf taskRankingResultsLogFilePrefix (time.Now s.world).UnixNano)
            (O_CREATE ||| O_WRONLY) logFilePermissions]
        else []) := by
  cases h1 : (createTaskRankerLogFile (time.Now s.world) s.world).1.2 with
  | some err =>
    rw [Configure_first_fails s err h1]
    simp [createTaskRankerLogFile_trace]
  | none =>
    cases h2 : (createTaskRankingResultsLogFile (time.Now s.world)
        (createTaskRankerLogFile (time.Now s.world) s.world).2).1.2 with
    | some err =>
      rw [Configure_second_fails s err h1 h2]
      simp [createTaskRankerLogFile_trace, createTaskRankingResultsLogFile_trace]
    | none =>
      rw [Configure_succeeds s h1 h2]
      simp [createTaskRankerLogFile_trace, createTaskRankingResultsLogFile_trace]

theorem wrapInt64_range (x : Int) : -2 ^ 63 ≤ wrapInt64 x ∧ wrapInt64 x < 2 ^ 63 := by
  unfold wrapInt64
  omega

/-! ## Claims about `Configure` and the file names -/

/-- C1: `Configure` creates the task-ranker log file before it attempts the ranking-results
log file.  If the first creation fails, `Configure` returns that wrapped error, the only call
it has made is the first `OpenFile`, and the hook list is unchanged.  If the first succeeds
and the second fails, `Configure` returns the second wrapped error, has made the two
`OpenFile` calls in that order, and the hook list is unchanged.  If both succeed the same two
calls were made in the same order. -/
theorem Configure_aborts_on_creation_failure (s : State) :
    (∀ err, (createTaskRankerLogFile (time.Now s.world) s.world).1.2 = some err →
      (Configure s).1 = some err ∧
      (∃ cause, err = GoError.wrap cause "failed to create task ranker operations log file") ∧
      (Configure s).2.world.trace = s.world.trace ++
        [Call.openFile (Sprintf taskRankerLogFilePrefix (time.Now s.world).UnixNano)
          (O_CREATE ||| O_WRONLY) logFilePermissions] ∧
      (Configure s).2.log.Hooks = s.log.Hooks) ∧
    (∀ err, (createTaskRankerLogFile (time.Now s.world) s.world).1.2 = none →
      (createTaskRankingResultsLogFile (time.Now s.world)
        (createTaskRankerLogFile (time.Now s.world) s.world).2).1.2 = some err →
      (Configure s).1 = some err ∧
      (∃ cause, err = GoError.wrap cause "failed to create task ranker log file") ∧
      (Configure s).2.world.trace = s.world.trace ++
        [Call.openFile (Sprintf taskRankerLogFilePrefix (time.Now s.world).UnixNano)
          (O_CREATE ||| O_WRONLY) logFilePermissions,
         Call.openFile (Sprintf taskRankingResultsLogFilePrefix (time.Now s.world).UnixNano)
          (O_CREATE ||| O_WRONLY) logFilePermissions] ∧
      (Configure s).2.log.Hooks = s.log.Hooks) ∧
    ((createTaskRankerLogFile (time.Now s.world) s.world).1.2 = none →
      (Configure s).2.world.trace = s.world.trace ++
        [Call.openFile (Sprintf taskRankerLogFilePrefix (time.Now s.world).UnixNano)
          (O_CREATE ||| O_WRONLY) logFilePermissions,
         Call.openFile (Sprintf taskRankingResultsLogFilePrefix (time.Now s.world).UnixNano)
          (O_CREATE ||| O_WRONLY) logFilePermissions]) := by
  refine ⟨?_, ?_, ?_⟩
  · intro err h
    refine ⟨?_, ?_, ?_, ?_⟩
    · rw [Configure_first_fails s err h]
    · rw [createTaskRankerLogFile_err] at h
      cases ho : s.world.oracle s.world.step with
      | none => simp [ho] at h
      | some e =>
        simp only [ho, Option.map_some', Option.some.injEq] at h
        exact ⟨_, h.symm⟩
    · rw [Configure_trace, h]
      simp
    · rw [Configure_first_fails s err h]
      simp [LogrusLogger.SetLevel, LogrusLogger.SetOutput]
  · intro err h1 h2
    refine ⟨?_, ?_, ?_, ?_⟩
    · rw [Configure_second_fails s err h1 h2]
    · rw [createTaskRankingResultsLogFile_err] at h2
      cases ho : (createTaskRankerLogFile (time.Now s.world) s.world).2.oracle
          (createTaskRankerLogFile (time.Now s.world) s.world).2.step with
      | none => simp [ho] at h2
      | some e =>
        simp only [ho, Option.map_some', Option.some.injEq] at h2
        exact ⟨_, h2.symm⟩
    · rw [Configure_trace, h1]
      simp
    · rw [Configure_second_fails s err h1 h2]
      simp [LogrusLogger.SetLevel, LogrusLogger.SetOutput]
  · intro h1
    rw [Configure_trace, h1]
    simp

/-- Witness for C1 at sample inputs: with the first system call failing (errno 13) `Configure`
returns the wrapped error of the first creation; with only the second failing it returns the
wrapped error of the second. -/
theorem Configure_aborts_on_creation_failure_witness :
    (Configure (initState (failingAt 0 13))).1 = some (GoError.wrap
      (GoError.pathError "open" "task_ranker_logs_1600000000123456789.log" (Cause.errno 13))
      "failed to create task ranker operations log file") ∧
    (Configure (initState (failingAt 1 13))).1 = some (GoError.wrap
      (GoError.pathError "open" "task_ranking_results_1600000000123456789.log" (Cause.errno 13))
      "failed to create task ranker log file") :=
  ⟨((Configure_aborts_on_creation_failure (initState (failingAt 0 13))).1 _ (by decide)).1,
   ((Configure_aborts_on_creation_failure (initState (failingAt 1 13))).2.1 _ (by decide)
      (by decide)).1⟩

/-- C3: for every timestamp `now`, `createTaskRankerLogFile` opens the file named
`task_ranker_logs_` followed by the decimal rendering of `now.UnixNano()` and `.log`, and
`createTaskRankingResultsLogFile` opens `task_ranking_results_` followed by the same rendering
and `.log`.  The rendering is that of a signed 64-bit value and reads back to it.  `Configure`
hands one timestamp to both, so every `OpenFile` call of one `Configure` carries the same
numeric suffix. -/
theorem log_file_names (now : Time) (w : World) (s : State) :
    lastOpened (createTaskRankerLogFile now w).2 =
      some ("task_ranker_logs_" ++ decimal now.UnixNano ++ ".log") ∧
    lastOpened (createTaskRankingResultsLogFile now w).2 =
      some ("task_ranking_results_" ++ decimal now.UnixNano ++ ".log") ∧
    (-2 ^ 63 ≤ now.UnixNano ∧ now.UnixNano < 2 ^ 63) ∧
    readDecimal (decimal now.UnixNano).data = now.UnixNano ∧
    (Configure s).2.world.trace = s.world.trace ++
      (Call.openFile ("task_ranker_logs_" ++ decimal (time.Now s.world).UnixNano ++ ".log")
          (O_CREATE ||| O_WRONLY) logFilePermissions ::
        if (createTaskRankerLogFile (time.Now s.world) s.world).1.2 = none then
          [Call.openFile
            ("task_ranking_results_" ++ decimal (time.Now s.world).UnixNano ++ ".log")
            (O_CREATE ||| O_WRONLY) logFilePermissions]
        else []) := by
  have e1 : ∀ n, Sprintf taskRankerLogFilePrefix n = "task_ranker_logs_" ++ decimal n ++ ".log" := by
    intro n
    apply String.ext
    simp [Sprintf, taskRankerLogFilePrefix, String.data_append]
  have e2 : ∀ n, Sprintf taskRankingResultsLogFilePrefix n =
      "task_ranking_results_" ++ decimal n ++ ".log" := by
    intro n
    apply String.ext
    simp [Sprintf, taskRankingResultsLogFilePrefix, String.data_append]
  refine ⟨?_, ?_, wrapInt64_range _, readDecimal_decimalChars _, ?_⟩
  · rw [lastOpened_createTaskRankerLogFile, e1]
  · rw [lastOpened_createTaskRankingResultsLogFile, e2]
  · rw [Configure_trace, e1, e2]

/-- C4: the file name is an injective function of the nanosecond timestamp, for each of the
two kinds of file: timestamps with different `UnixNano` values make `createTaskRankerLogFile`
open different names, and likewise `createTaskRankingResultsLogFile`.  For any two
timestamps, equal or not, a task-ranker log file name is never a ranking-results log file
name; so whenever `Configure` makes its two `OpenFile` calls, they name different files. -/
theorem log_file_names_unique (t1 t2 : Time) (w1 w2 : World) (s : State) :
    (t1.UnixNano ≠ t2.UnixNano →
      lastOpened (createTaskRankerLogFile t1 w1).2 ≠
        lastOpened (createTaskRankerLogFile t2 w2).2 ∧
      lastOpened (createTaskRankingResultsLogFile t1 w1).2 ≠
        lastOpened (createTaskRankingResultsLogFile t2 w2).2) ∧
    lastOpened (createTaskRankerLogFile t1 w1).2 ≠
      lastOpened (createTaskRankingResultsLogFile t2 w2).2 ∧
    (∀ n1 n2 f1 f2 p1 p2,
      (Configure s).2.world.trace =
        s.world.trace ++ [Call.openFile n1 f1 p1, Call.openFile n2 f2 p2] → n1 ≠ n2) := by
  simp only [lastOpened_createTaskRankerLogFile, lastOpened_createTaskRankingResultsLogFile]
  refine ⟨?_, ?_, ?_⟩
  · intro hne
    constructor
    · intro h
      exact hne (Sprintf_injective _ _ _ (Option.some.inj h))
    · intro h
      exact hne (Sprintf_injective _ _ _ (Option.some.inj h))
  · intro h
    exact Sprintf_kinds_ne _ _ (Option.some.inj h)
  · intro n1 n2 f1 f2 p1 p2 h
    rw [Configure_trace] at h
    have h' := List.append_cancel_left h
    by_cases hc : (createTaskRankerLogFile (time.Now s.world) s.world).1.2 = none
    · simp only [hc, if_true, List.cons.injEq, Call.openFile.injEq, and_true] at h'
      obtain ⟨⟨a, _, _⟩, b, _, _⟩ := h'
      rw [← a, ← b]
      exact Sprintf_kinds_ne _ _
    · simp [hc] at h'

/-- Witness for C4: two timestamps one nanosecond apart give different task-ranker log file
names, and one `Configure` run in the sample world opens two different names. -/
theorem log_file_names_unique_witness :
    lastOpened (createTaskRankerLogFile (Time.mk 5 0) sampleWorld).2 ≠
      lastOpened (createTaskRankerLogFile (Time.mk 5 1) sampleWorld).2 ∧
    "task_ranker_logs_1600000000123456789.log" ≠
      "task_ranking_results_1600000000123456789.log" :=
  ⟨((log_file_names_unique (Time.mk 5 0) (Time.mk 5 1) sampleWorld sampleWorld
      (initState sampleWorld)).1 (by decide)).1,
   (log_file_names_unique (Time.mk 5 0) (Time.mk 5 1) sampleWorld sampleWorld
      (initState sampleWorld)).2.2 _ _ 65 65 438 438 (by decide)⟩

/-- C5: when both file creations succeed, `Configure` returns nil, the logger writes to
discard at minimum level Info, and exactly two hooks have been appended to the hook list, in
this order: a hook with a text formatter (colors disabled, full timestamp, RFC3339Nano), the
task-ranker log file handle and selectors `stage`, `query`, `query_result`; then a hook with
a JSON formatter (HTML escaping disabled, RFC3339Nano), the ranking-results log file handle
and selector `task_ranking_results`.  Both handles are non-nil. -/
theorem Configure_success (s : State)
    (h1 : (createTaskRankerLogFile (time.Now s.world) s.world).1.2 = none)
    (h2 : (createTaskRankingResultsLogFile (time.Now s.world)
      (createTaskRankerLogFile (time.Now s.world) s.world).2).1.2 = none) :
    (Configure s).1 = none ∧
    (Configure s).2.log.Out = Output.discard ∧
    (Configure s).2.log.Level = Level.infoLevel ∧
    (Configure s).2.log.Hooks = s.log.Hooks ++
      [ newWriterHook
          (Formatter.text
            { ForceColors := false, DisableColors := true, DisableTimestamp := false,
              FullTimestamp := true, TimestampFormat := "2006-01-02T15:04:05.999999999Z07:00" })
          (Configure s).2.taskRankerLogFile
          ["stage", "query", "query_result"],
        newWriterHook
          (Formatter.json
            { TimestampFormat := "2006-01-02T15:04:05.999999999Z07:00",
              DisableTimestamp := false, DisableHTMLEscape := true, PrettyPrint := false })
          (Configure s).2.taskRankingResultsLogFile
          ["task_ranking_results"] ] ∧
    (Configure s).2.taskRankerLogFile ≠ none ∧
    (Configure s).2.taskRankingResultsLogFile ≠ none := by
  rw [createTaskRankerLogFile_err] at h1
  rw [createTaskRankingResultsLogFile_err] at h2
  have o1 : s.world.oracle s.world.step = none := by
    cases ho : s.world.oracle s.world.step with
    | none => rfl
    | some e => simp [ho] at h1
  have o2 : (createTaskRankerLogFile (time.Now s.world) s.world).2.oracle
      (createTaskRankerLogFile (time.Now s.world) s.world).2.step = none := by
    cases ho : (createTaskRankerLogFile (time.Now s.world) s.world).2.oracle
        (createTaskRankerLogFile (time.Now s.world) s.world).2.step with
    | none => rfl
    | some e => simp [ho] at h2
  rw [Configure_succeeds s (by rw [createTaskRankerLogFile_err, o1]; rfl)
    (by rw [createTaskRankingResultsLogFile_err, o2]; rfl)]
  refine ⟨rfl, rfl, rfl, rfl, ?_, ?_⟩
  · simp [(createTaskRankerLogFile_ok _ _ o1).1]
  · simp [(createTaskRankingResultsLogFile_ok _ _ o2).1]

/-- Witness for C5: in the sample world both creations succeed and `Configure` returns nil. -/
theorem Configure_success_witness : (Configure (initState sampleWorld)).1 = none :=
  (Configure_success (initState sampleWorld) (by decide) (by decide)).1

/-- C7: both log files are opened with exactly the flags `O_CREATE|O_WRONLY` (the append,
truncate and exclusive flags are not set) and with permission bits 0666; decoded as Unix
permission bits, 0666 grants read and write, and not execute, to owner, group and others. -/
theorem log_files_open_mode (now : Time) (w : World) :
    (∃ name, (createTaskRankerLogFile now w).2.trace =
      w.trace ++ [Call.openFile name (O_CREATE ||| O_WRONLY) 0o666]) ∧
    (∃ name, (createTaskRankingResultsLogFile now w).2.trace =
      w.trace ++ [Call.openFile name (O_CREATE ||| O_WRONLY) 0o666]) ∧
    hasFlag (O_CREATE ||| O_WRONLY) O_CREATE = true ∧
    hasFlag (O_CREATE ||| O_WRONLY) O_WRONLY = true ∧
    hasFlag (O_CREATE ||| O_WRONLY) O_APPEND = false ∧
    hasFlag (O_CREATE ||| O_WRONLY) O_TRUNC = false ∧
    hasFlag (O_CREATE ||| O_WRONLY) O_EXCL = false ∧
    hasFlag (O_CREATE ||| O_WRONLY) O_RDWR = false ∧
    (∀ i, (O_CREATE ||| O_WRONLY).testBit i = true ↔ (1 <<< i = O_CREATE ∨ 1 <<< i = O_WRONLY)) ∧
    logFilePermissions = 0o666 ∧
    (∀ who, grants logFilePermissions who Access.read = true ∧
      grants logFilePermissions who Access.write = true ∧
      grants logFilePermissions who Access.execute = false) := by
  refine ⟨⟨_, createTaskRankerLogFile_trace now w⟩,
    ⟨_, createTaskRankingResultsLogFile_trace now w⟩, by decide, by decide, by decide,
    by decide, by decide, by decide, ?_, rfl, ?_⟩
  · intro i
    by_cases hi : i < 7
    · interval_cases i <;> decide
    · have h2 : 2 ^ 7 ≤ 2 ^ i := Nat.pow_le_pow_right (by norm_num) (by omega)
      have hb : (O_CREATE ||| O_WRONLY).testBit i = false :=
        Nat.testBit_lt_two_pow (lt_of_lt_of_le (by decide) h2)
      have hs : 1 <<< i = 2 ^ i := by rw [Nat.shiftLeft_eq, Nat.one_mul]
      rw [hb, hs]
      simp only [O_CREATE, O_WRONLY]
      constructor
      · intro h
        cases h
      · intro h
        omega
  · intro who
    cases who <;> decide

theorem createTaskRankerLogFile_err_none (now : Time) (w : World) :
    (createTaskRankerLogFile now w).1.2 = none ↔ w.oracle w.step = none := by
  rw [createTaskRankerLogFile_err]
  cases w.oracle w.step <;> simp

theorem createTaskRankingResultsLogFile_err_none (now : Time) (w : World) :
    (createTaskRankingResultsLogFile now w).1.2 = none ↔ w.oracle w.step = none := by
  rw [createTaskRankingResultsLogFile_err]
  cases w.oracle w.step <;> simp

/-- The world and the handles after a `Configure` whose two creations succeed. -/
theorem Configure_world_ok (s : State) (o1 : s.world.oracle s.world.step = none)
    (o2 : s.world.oracle (s.world.step + 1) = none) :
    (Configure s).1 = none ∧
    (Configure s).2.taskRankerLogFile = some s.world.heap.length ∧
    (Configure s).2.taskRankingResultsLogFile = some (s.world.heap.length + 1) ∧
    (Configure s).2.world.heap = s.world.heap ++
      [FileObj.mk (Sprintf taskRankerLogFilePrefix (time.Now s.world).UnixNano)
        (lowestFree s.world.fdTable) false,
       FileObj.mk (Sprintf taskRankingResultsLogFilePrefix (time.Now s.world).UnixNano)
        (lowestFree (pollerFds s.world (lowestFree s.world.fdTable) ++
          lowestFree s.world.fdTable :: s.world.fdTable)) false] ∧
    (Configure s).2.world.fdTable =
      lowestFree (pollerFds s.world (lowestFree s.world.fdTable) ++
          lowestFree s.world.fdTable :: s.world.fdTable) ::
        (pollerFds s.world (lowestFree s.world.fdTable) ++
          lowestFree s.world.fdTable :: s.world.fdTable) ∧
    (Configure s).2.world.step = s.world.step + 2 ∧
    (Configure s).2.world.oracle = s.world.oracle := by
  obtain ⟨a1, a2, a3, a4, a5, a6⟩ := createTaskRankerLogFile_ok (time.Now s.world) s.world o1
  have o2' : (createTaskRankerLogFile (time.Now s.world) s.world).2.oracle
      (createTaskRankerLogFile (time.Now s.world) s.world).2.step = none := by
    rw [a4, a5]; exact o2
  obtain ⟨b1, b2, b3, b4, b5, _⟩ := createTaskRankingResultsLogFile_ok (time.Now s.world)
    (createTaskRankerLogFile (time.Now s.world) s.world).2 o2'
  rw [pollerFds_of_init _ _ a6] at b3
  rw [Configure_succeeds s ((createTaskRankerLogFile_err_none _ _).2 o1)
    ((createTaskRankingResultsLogFile_err_none _ _).2 o2')]
  refine ⟨rfl, a1, ?_, ?_, ?_, ?_, ?_⟩
  · show (createTaskRankingResultsLogFile _ _).1.1 = _
    rw [b1, a2]; simp
  · show (createTaskRankingResultsLogFile _ _).2.heap = _
    rw [b2, a2, a3]; simp
  · show (createTaskRankingResultsLogFile _ _).2.fdTable = _
    rw [b3, a3]; rfl
  · show (createTaskRankingResultsLogFile _ _).2.step = _
    rw [b4, a4]
  · show (createTaskRankingResultsLogFile _ _).2.oracle = _
    rw [b5, a5]

/-- The world and the handles after a `Configure` whose first creation succeeds and whose
second creation fails. -/
theorem Configure_world_second_fails (s : State) (e : Nat)
    (o1 : s.world.oracle s.world.step = none)
    (o2 : s.world.oracle (s.world.step + 1) = some e) :
    (Configure s).2.taskRankerLogFile = some s.world.heap.length ∧
    (Configure s).2.taskRankingResultsLogFile = none ∧
    (Configure s).2.world.heap = s.world.heap ++
      [FileObj.mk (Sprintf taskRankerLogFilePrefix (time.Now s.world).UnixNano)
        (lowestFree s.world.fdTable) false] ∧
    (Configure s).2.world.fdTable =
      pollerFds s.world (lowestFree s.world.fdTable) ++
        lowestFree s.world.fdTable :: s.world.fdTable ∧
    (Configure s).2.world.step = s.world.step + 2 ∧
    (Configure s).2.world.oracle = s.world.oracle := by
  obtain ⟨a1, a2, a3, a4, a5, _⟩ := createTaskRankerLogFile_ok (time.Now s.world) s.world o1
  have o2' : (createTaskRankerLogFile (time.Now s.world) s.world).2.oracle
      (createTaskRankerLogFile (time.Now s.world) s.world).2.step = some e := by
    rw [a4, a5]; exact o2
  obtain ⟨b1, b2, b3⟩ := createTaskRankingResultsLogFile_fail (time.Now s.world)
    (createTaskRankerLogFile (time.Now s.world) s.world).2 e o2'
  have herr := createTaskRankingResultsLogFile_err (time.Now s.world)
    (createTaskRankerLogFile (time.Now s.world) s.world).2
  rw [o2'] at herr
  rw [Configure_second_fails s _ ((createTaskRankerLogFile_err_none _ _).2 o1) herr]
  refine ⟨a1, b1, ?_, ?_, ?_, ?_⟩
  · show (createTaskRankingResultsLogFile _ _).2.heap = _
    rw [b2, a2]
  · show (createTaskRankingResultsLogFile _ _).2.fdTable = _
    rw [b3, a3]
  · show (createTaskRankingResultsLogFile _ _).2.step = _
    simp only [createTaskRankingResultsLogFile, os.OpenFile, o2']
    rw [a4]
  · show (createTaskRankingResultsLogFile _ _).2.oracle = _
    simp only [createTaskRankingResultsLogFile, os.OpenFile, o2']
    rw [a5]

/-! ## Lemmas on `Close` and `Done` -/

theorem wrap_guard (err : Option GoError) (msg : String) :
    (if err ≠ none then errors.Wrap err msg else err) = errors.Wrap err msg := by
  cases err <;> simp [errors.Wrap]

theorem Close_trace (p : Nat) (w : World) :
    (File.Close p w).2.trace = w.trace ++ [Call.close p] := by
  unfold File.Close
  cases w.heap[p]? with
  | none => rfl
  | some f =>
    by_cases hc : f.closed = true
    · simp [hc]
    · cases ho : w.oracle w.step <;> simp [hc, ho]

/-- Closing a file object that is open releases its descriptor, marks the object closed and
reports the result of the system call. -/
theorem Close_open (p : Nat) (w : World) (f : FileObj) (hf : w.heap[p]? = some f)
    (hc : f.closed = false) :
    (File.Close p w).1 =
      (w.oracle w.step).map (fun e => GoError.pathError "close" f.name (Cause.errno e)) ∧
    (File.Close p w).2.fdTable = w.fdTable.filter (fun d => decide (d ≠ f.fd)) ∧
    (File.Close p w).2.heap = w.heap.set p { f with closed := true } ∧
    (File.Close p w).2.step = w.step + 1 ∧
    (File.Close p w).2.oracle = w.oracle := by
  unfold File.Close
  cases ho : w.oracle w.step <;> simp [hf, hc, ho]

/-- The result of `Done` with both handles set: only the second `Close` decides it. -/
theorem Done_both (s : State) (p1 p2 : Nat) (h1 : s.taskRankerLogFile = some p1)
    (h2 : s.taskRankingResultsLogFile = some p2) :
    (Done s).1 = errors.Wrap (File.Close p2 (File.Close p1 s.world).2).1
      "failed to close tank ranking results log file" ∧
    (Done s).2.world = (File.Close p2 (File.Close p1 s.world).2).2 := by
  refine ⟨?_, ?_⟩ <;> simp only [Done, h1, h2, wrap_guard]

/-- The result of `Done` with only the task-ranker handle set. -/
theorem Done_first_only (s : State) (p1 : Nat) (h1 : s.taskRankerLogFile = some p1)
    (h2 : s.taskRankingResultsLogFile = none) :
    (Done s).1 = errors.Wrap (File.Close p1 s.world).1 "failed to close task ranker log file" ∧
    (Done s).2.world = (File.Close p1 s.world).2 := by
  refine ⟨?_, ?_⟩ <;> simp only [Done, h1, h2, wrap_guard]

theorem Done_trace (s : State) :
    (Done s).2.world.trace = s.world.trace ++
      (s.taskRankerLogFile.toList ++ s.taskRankingResultsLogFile.toList).map Call.close := by
  cases h1 : s.taskRankerLogFile <;> cases h2 : s.taskRankingResultsLogFile <;>
    simp [Done, h1, h2, Close_trace]

theorem getElem?_append_pair_fst {α : Type} (l : List α) (x y : α) :
    (l ++ [x, y])[l.length]? = some x := by
  rw [List.getElem?_append_right (le_refl _)]
  simp

theorem getElem?_append_pair_snd {α : Type} (l : List α) (x y : α) :
    (l ++ [x, y])[l.length + 1]? = some y := by
  rw [List.getElem?_append_right (by omega)]
  simp

theorem getElem?_append_single {α : Type} (l : List α) (x : α) :
    (l ++ [x])[l.length]? = some x := by
  rw [List.getElem?_append_right (le_refl _)]
  simp

theorem set_append_pair {α : Type} (l : List α) (x y x1 y1 : α) :
    ((l ++ [x, y]).set l.length x1).set (l.length + 1) y1 = l ++ [x1, y1] := by
  simp [List.set_append]

theorem set_append_single {α : Type} (l : List α) (x x1 : α) :
    (l ++ [x]).set l.length x1 = l ++ [x1] := by
  simp [List.set_append]

theorem filter_ne_of_not_mem (a : Nat) (l : List Nat) (h : a ∉ l) :
    l.filter (fun d => decide (d ≠ a)) = l := by
  rw [List.filter_eq_self]
  intro d hd
  have : d ≠ a := fun e => h (e ▸ hd)
  simpa using this

/-! ## Claims about `Done` -/

set_option maxRecDepth 100000 in
/-- C2, evaluated where it fails: both handles are non-nil, the `Close` of the task-ranker log
file fails (errno 5) and the `Close` of the ranking-results log file succeeds, yet `Done`
returns nil: the first close error is overwritten by the nil result of the second close. -/
theorem Done_drops_first_close_error :
    firstCloseFails.taskRankerLogFile = some 0 ∧
    firstCloseFails.taskRankingResultsLogFile = some 1 ∧
    (File.Close 0 firstCloseFails.world).1 = some (GoError.pathError "close"
      "task_ranker_logs_1600000000123456789.log" (Cause.errno 5)) ∧
    (File.Close 1 (File.Close 0 firstCloseFails.world).2).1 = none ∧
    (Done firstCloseFails).1 = none := by
  decide

/-- C9: for every state of the two handles, `Done` calls `Close` exactly once on each handle
that is non-nil and on nothing else, the task-ranker log file first and the ranking-results
log file second, whatever the first close returned.  With both handles nil it makes no call
and returns nil.  `Done` leaves both handle variables (and the logger) unchanged, so a second
`Done` makes the same `Close` calls again. -/
theorem Done_closes_each_handle_once (s : State) :
    (Done s).2.world.trace = s.world.trace ++
      (s.taskRankerLogFile.toList ++ s.taskRankingResultsLogFile.toList).map Call.close ∧
    (∀ p1 p2, s.taskRankerLogFile = some p1 → s.taskRankingResultsLogFile = some p2 →
      (File.Close p1 s.world).1 ≠ none →
      (Done s).2.world.trace = s.world.trace ++ [Call.close p1, Call.close p2]) ∧
    (s.taskRankerLogFile = none → s.taskRankingResultsLogFile = none →
      (Done s).1 = none ∧ (Done s).2.world.trace = s.world.trace ∧
      (Done s).2.world.fdTable = s.world.fdTable ∧ (Done s).2.world.heap = s.world.heap ∧
      (Done s).2.world.step = s.world.step) ∧
    (Done s).2.taskRankerLogFile = s.taskRankerLogFile ∧
    (Done s).2.taskRankingResultsLogFile = s.taskRankingResultsLogFile ∧
    (Done s).2.log = s.log ∧
    (Done (Done s).2).2.world.trace = s.world.trace ++
      (s.taskRankerLogFile.toList ++ s.taskRankingResultsLogFile.toList).map Call.close ++
      (s.taskRankerLogFile.toList ++ s.taskRankingResultsLogFile.toList).map Call.close := by
  refine ⟨Done_trace s, ?_, ?_, rfl, rfl, rfl, ?_⟩
  · intro p1 p2 h1 h2 _
    rw [Done_trace, h1, h2]
    rfl
  · intro h1 h2
    simp [Done, h1, h2]
  · rw [Done_trace (Done s).2, Done_trace s]
    rfl

/-- Witness for C9: before any `Configure` both handles are nil and `Done` returns nil. -/
theorem Done_closes_each_handle_once_witness : (Done (initState sampleWorld)).1 = none :=
  ((Done_closes_each_handle_once (initState sampleWorld)).2.2.1 rfl rfl).1

/-- Releasing descriptor `a` from a table made of the poller's descriptors, `a` itself and
the descriptors `t` that were open before leaves the poller's descriptors and `t`. -/
theorem filter_release (a : Nat) (ps t : List Nat) (hp : ∀ d ∈ ps, d ≠ a) (ht : a ∉ t) :
    (ps ++ a :: t).filter (fun d => decide (d ≠ a)) = ps ++ t := by
  rw [List.filter_append, List.filter_cons]
  have e1 : ps.filter (fun d => decide (d ≠ a)) = ps := by
    rw [List.filter_eq_self]
    intro d hd
    simpa using hp d hd
  rw [e1, filter_ne_of_not_mem a t ht]
  simp

theorem filter_release_head (b : Nat) (l : List Nat) (hb : b ∉ l) :
    (b :: l).filter (fun d => decide (d ≠ b)) = l := by
  rw [List.filter_cons, filter_ne_of_not_mem b l hb]
  simp

theorem filter_release_two (a b : Nat) (ps t : List Nat) (hp : ∀ d ∈ ps, d ≠ a) (ht : a ∉ t)
    (hba : b ≠ a) (hb : b ∉ ps ++ t) :
    ((b :: (ps ++ a :: t)).filter (fun d => decide (d ≠ a))).filter
      (fun d => decide (d ≠ b)) = ps ++ t := by
  have e0 : (b :: (ps ++ a :: t)).filter (fun d => decide (d ≠ a)) = b :: (ps ++ t) := by
    rw [List.filter_cons, filter_release a ps t hp ht]
    simp [hba]
  rw [e0, filter_release_head b _ hb]

theorem pollerFds_uninit (w : World) (fd : Nat) (h : w.pollerInit = false) :
    ∃ ep ev, ep ≠ ev ∧ ep ∉ w.fdTable ∧ ev ∉ w.fdTable ∧ pollerFds w fd = [ev, ep] := by
  have h1 := lowestFree_not_mem (fd :: w.fdTable)
  have h2 := lowestFree_not_mem (lowestFree (fd :: w.fdTable) :: fd :: w.fdTable)
  simp only [List.mem_cons, not_or] at h1 h2
  exact ⟨_, _, fun e => h2.1 e.symm, h1.2, h2.2.2, by simp [pollerFds, h]⟩

/-! ## Claims about `Configure` followed by `Done` -/

/-- C8 as stated fails in a fresh process where every system call succeeds: both handles are
nil at the start, `Configure` and `Done` return nil, but the descriptors open after `Done`
are 0, 1, 2, 4 and 5 while only 0, 1, 2 were open before `Configure`.  Descriptors 4 and 5 are
those of the runtime poller, opened inside the first `os.OpenFile`. -/
theorem Configure_then_Done_keeps_poller_descriptors :
    (∀ k, sampleWorld.oracle k = none) ∧
    (initState sampleWorld).taskRankerLogFile = none ∧
    (initState sampleWorld).taskRankingResultsLogFile = none ∧
    (Configure (initState sampleWorld)).1 = none ∧
    (Done (Configure (initState sampleWorld)).2).1 = none ∧
    (initState sampleWorld).world.fdTable = [0, 1, 2] ∧
    (Configure (initState sampleWorld)).2.world.fdTable = [6, 5, 4, 3, 0, 1, 2] ∧
    (Done (Configure (initState sampleWorld)).2).2.world.fdTable = [5, 4, 0, 1, 2] ∧
    ¬ (∀ d, d ∈ (Done (Configure (initState sampleWorld)).2).2.world.fdTable ↔
      d ∈ (initState sampleWorld).world.fdTable) :=
  ⟨fun _ => rfl, rfl, rfl, by decide, by decide, rfl, by decide, by decide,
    fun h => absurd ((h 4).1 (by decide)) (by decide)⟩

/-- C8, amended: in a world where every system call succeeds, `Configure` returns nil and
leaves both package-level handles non-nil, distinct and open, each on a descriptor of its own
that was free before; `Done` right after returns nil as well, both file objects are then
closed and their descriptors released.  The descriptors open after `Done` are those open
before `Configure` together with the descriptors of the runtime poller that the first
successful `os.OpenFile` opened: none when the poller was set up before `Configure` (then the
table is the one from before), two otherwise. -/
theorem Configure_then_Done_closes_files (s : State)
    (hok : ∀ k, s.world.oracle k = none) :
    (Configure s).1 = none ∧
    (∃ p1 p2 f1 f2,
      (Configure s).2.taskRankerLogFile = some p1 ∧
      (Configure s).2.taskRankingResultsLogFile = some p2 ∧ p1 ≠ p2 ∧
      (Configure s).2.world.heap[p1]? = some f1 ∧
      (Configure s).2.world.heap[p2]? = some f2 ∧
      f1.closed = false ∧ f2.closed = false ∧
      f1.fd ∈ (Configure s).2.world.fdTable ∧ f2.fd ∈ (Configure s).2.world.fdTable ∧
      f1.fd ≠ f2.fd ∧ f1.fd ∉ s.world.fdTable ∧ f2.fd ∉ s.world.fdTable ∧
      (Done (Configure s).2).2.world.heap[p1]? = some { f1 with closed := true } ∧
      (Done (Configure s).2).2.world.heap[p2]? = some { f2 with closed := true } ∧
      f1.fd ∉ (Done (Configure s).2).2.world.fdTable ∧
      f2.fd ∉ (Done (Configure s).2).2.world.fdTable ∧
      (∀ d ∈ pollerFds s.world f1.fd, d ≠ f1.fd ∧ d ≠ f2.fd ∧ d ∉ s.world.fdTable) ∧
      (Done (Configure s).2).2.world.fdTable = pollerFds s.world f1.fd ++ s.world.fdTable) ∧
    (Done (Configure s).2).1 = none ∧
    (s.world.pollerInit = true →
      (Done (Configure s).2).2.world.fdTable = s.world.fdTable) ∧
    (s.world.pollerInit = false → ∃ ep ev, ep ≠ ev ∧ ep ∉ s.world.fdTable ∧
      ev ∉ s.world.fdTable ∧
      (Done (Configure s).2).2.world.fdTable = ev :: ep :: s.world.fdTable) := by
  obtain ⟨c1, c2, c3, c4, c5, c6, c7⟩ := Configure_world_ok s (hok _) (hok _)
  have ha := lowestFree_not_mem s.world.fdTable
  have hb := lowestFree_not_mem (pollerFds s.world (lowestFree s.world.fdTable) ++
    lowestFree s.world.fdTable :: s.world.fdTable)
  have hP := pollerFds_fresh s.world (lowestFree s.world.fdTable)
  have hb' := hb
  simp only [List.mem_append, List.mem_cons, not_or] at hb'
  obtain ⟨hbP, hba, hbT⟩ := hb'
  have g1 : (Configure s).2.world.heap[s.world.heap.length]? = some
      (FileObj.mk (Sprintf taskRankerLogFilePrefix (time.Now s.world).UnixNano)
        (lowestFree s.world.fdTable) false) := by
    rw [c4]; exact getElem?_append_pair_fst _ _ _
  have g2 : (Configure s).2.world.heap[s.world.heap.length + 1]? = some
      (FileObj.mk (Sprintf taskRankingResultsLogFilePrefix (time.Now s.world).UnixNano)
        (lowestFree (pollerFds s.world (lowestFree s.world.fdTable) ++
          lowestFree s.world.fdTable :: s.world.fdTable)) false) := by
    rw [c4]; exact getElem?_append_pair_snd _ _ _
  obtain ⟨d1, d2⟩ := Done_both (Configure s).2 _ _ c2 c3
  obtain ⟨k1, k2, k3, k4, k5⟩ := Close_open _ (Configure s).2.world _ g1 rfl
  have g2' : (File.Close s.world.heap.length (Configure s).2.world).2.heap[
      s.world.heap.length + 1]? = some
      (FileObj.mk (Sprintf taskRankingResultsLogFilePrefix (time.Now s.world).UnixNano)
        (lowestFree (pollerFds s.world (lowestFree s.world.fdTable) ++
          lowestFree s.world.fdTable :: s.world.fdTable)) false) := by
    rw [k3, List.getElem?_set_ne (by omega), g2]
  obtain ⟨m1, m2, m3, m4, m5⟩ := Close_open _
    (File.Close s.world.heap.length (Configure s).2.world).2 _ g2' rfl
  have hbPT : lowestFree (pollerFds s.world (lowestFree s.world.fdTable) ++
      lowestFree s.world.fdTable :: s.world.fdTable) ∉
      pollerFds s.world (lowestFree s.world.fdTable) ++ s.world.fdTable := by
    simp only [List.mem_append, not_or]
    exact ⟨hbP, hbT⟩
  have hT : (Done (Configure s).2).2.world.fdTable =
      pollerFds s.world (lowestFree s.world.fdTable) ++ s.world.fdTable := by
    rw [d2, m2, k2, c5]
    exact filter_release_two (lowestFree s.world.fdTable) _
      (pollerFds s.world (lowestFree s.world.fdTable)) s.world.fdTable
      (fun d hd => (hP d hd).1) ha hba hbPT
  refine ⟨c1, ⟨_, _, _, _, c2, c3, by omega, g1, g2, rfl, rfl, ?_, ?_, Ne.symm hba, ha, hbT,
    ?_, ?_, ?_, ?_, ?_, hT⟩, ?_, ?_, ?_⟩
  · rw [c5]; simp
  · rw [c5]; simp
  · rw [d2, m3, k3, c4, set_append_pair]
    exact getElem?_append_pair_fst _ _ _
  · rw [d2, m3, k3, c4, set_append_pair]
    exact getElem?_append_pair_snd _ _ _
  · rw [hT]
    simp only [List.mem_append, not_or]
    exact ⟨fun h => (hP _ h).1 rfl, ha⟩
  · rw [hT]
    exact hbPT
  · intro d hd
    refine ⟨(hP d hd).1, ?_, (hP d hd).2⟩
    intro e
    subst e
    exact hbP hd
  · rw [d1, m1, k5, c7, hok]
    rfl
  · intro hp
    rw [hT, pollerFds_of_init _ _ hp]
    rfl
  · intro hp
    obtain ⟨ep, ev, h1, h2, h3, h4⟩ := pollerFds_uninit s.world (lowestFree s.world.fdTable) hp
    exact ⟨ep, ev, h1, h2, h3, by rw [hT, h4]; rfl⟩

/-- Witness for C8, amended: when the poller is set up before `Configure`, the descriptor
table after `Done` is the one from before; in a fresh process it has the two descriptors of
the poller in addition. -/
theorem Configure_then_Done_closes_files_witness :
    (Done (Configure (initState polledWorld)).2).2.world.fdTable = [4, 3, 0, 1, 2] ∧
    (Done (Configure (initState sampleWorld)).2).1 = none :=
  ⟨(Configure_then_Done_closes_files (initState polledWorld) (fun _ => rfl)).2.2.2.1 rfl,
   (Configure_then_Done_closes_files (initState sampleWorld) (fun _ => rfl)).2.2.1⟩

set_option maxRecDepth 100000 in
/-- C10 as stated fails in a fresh process where only the second `open` fails: both handles
are nil at the start and `Configure` returns an error; descriptors 3, 4 and 5 were opened
during that `Configure` (3 for the task-ranker log file, 4 and 5 by the runtime poller inside
`os.OpenFile`); `Done` closes the file and returns nil, and 4 and 5 are still open. -/
theorem failed_Configure_leaves_poller_descriptors :
    (initState (failingAt 1 13)).taskRankerLogFile = none ∧
    (initState (failingAt 1 13)).taskRankingResultsLogFile = none ∧
    (Configure (initState (failingAt 1 13))).1 ≠ none ∧
    (initState (failingAt 1 13)).world.fdTable = [0, 1, 2] ∧
    (Configure (initState (failingAt 1 13))).2.world.fdTable = [5, 4, 3, 0, 1, 2] ∧
    (Done (Configure (initState (failingAt 1 13))).2).1 = none ∧
    (Done (Configure (initState (failingAt 1 13))).2).2.world.fdTable = [5, 4, 0, 1, 2] ∧
    (4 ∉ (initState (failingAt 1 13)).world.fdTable ∧
      4 ∈ (Configure (initState (failingAt 1 13))).2.world.fdTable ∧
      4 ∈ (Done (Configure (initState (failingAt 1 13))).2).2.world.fdTable) := by
  decide

/-- C10, amended: `Configure` is not atomic on failure, and `Done` cleans up the file.  When
the first file creation succeeds and the second fails, `Configure` returns the error while
`taskRankerLogFile` holds the one file object it created, still open on a descriptor that was
free before, and `taskRankingResultsLogFile` is nil.  A `Done` after that makes exactly one
call, the `Close` of that file; afterwards the file object is closed and its descriptor
released, and if that close succeeds `Done` returns nil.  The descriptors that the failed
`Configure` added and that stay open after `Done` are exactly those of the runtime poller
opened inside the successful `os.OpenFile`: none when the poller was set up before (then the
table is the one from before `Configure`), two otherwise. -/
theorem Done_closes_file_of_failed_Configure (s : State) (err : GoError)
    (h1 : (createTaskRankerLogFile (time.Now s.world) s.world).1.2 = none)
    (h2 : (createTaskRankingResultsLogFile (time.Now s.world)
      (createTaskRankerLogFile (time.Now s.world) s.world).2).1.2 = some err) :
    (Configure s).1 = some err ∧
    (Configure s).2.taskRankingResultsLogFile = none ∧
    (∃ p f,
      (Configure s).2.taskRankerLogFile = some p ∧
      (Configure s).2.world.heap = s.world.heap ++ [f] ∧
      (Configure s).2.world.heap[p]? = some f ∧ f.closed = false ∧
      f.fd ∈ (Configure s).2.world.fdTable ∧ f.fd ∉ s.world.fdTable ∧
      (Configure s).2.world.fdTable = pollerFds s.world f.fd ++ f.fd :: s.world.fdTable ∧
      (Done (Configure s).2).2.world.trace = (Configure s).2.world.trace ++ [Call.close p] ∧
      (Done (Configure s).2).2.world.heap[p]? = some { f with closed := true } ∧
      ((File.Close p (Configure s).2.world).1 = none → (Done (Configure s).2).1 = none) ∧
      f.fd ∉ (Done (Configure s).2).2.world.fdTable ∧
      (∀ d ∈ pollerFds s.world f.fd, d ≠ f.fd ∧ d ∉ s.world.fdTable) ∧
      (Done (Configure s).2).2.world.fdTable = pollerFds s.world f.fd ++ s.world.fdTable) ∧
    (s.world.pollerInit = true →
      (Done (Configure s).2).2.world.fdTable = s.world.fdTable) ∧
    (s.world.pollerInit = false → ∃ ep ev, ep ≠ ev ∧ ep ∉ s.world.fdTable ∧
      ev ∉ s.world.fdTable ∧
      (Done (Configure s).2).2.world.fdTable = ev :: ep :: s.world.fdTable) := by
  have o1 := (createTaskRankerLogFile_err_none _ _).1 h1
  obtain ⟨_, _, _, a4, a5, _⟩ := createTaskRankerLogFile_ok (time.Now s.world) s.world o1
  have herr := createTaskRankingResultsLogFile_err (time.Now s.world)
    (createTaskRankerLogFile (time.Now s.world) s.world).2
  rw [h2, a4, a5] at herr
  cases o2 : s.world.oracle (s.world.step + 1) with
  | none => simp [o2] at herr
  | some e =>
    obtain ⟨c2, c3, c4, c5, c6, c7⟩ := Configure_world_second_fails s e o1 o2
    have ha := lowestFree_not_mem s.world.fdTable
    have hP := pollerFds_fresh s.world (lowestFree s.world.fdTable)
    have g1 : (Configure s).2.world.heap[s.world.heap.length]? = some
        (FileObj.mk (Sprintf taskRankerLogFilePrefix (time.Now s.world).UnixNano)
          (lowestFree s.world.fdTable) false) := by
      rw [c4]; exact getElem?_append_single _ _
    obtain ⟨d1, d2⟩ := Done_first_only (Configure s).2 _ c2 c3
    obtain ⟨k1, k2, k3, k4, k5⟩ := Close_open _ (Configure s).2.world _ g1 rfl
    have hT : (Done (Configure s).2).2.world.fdTable =
        pollerFds s.world (lowestFree s.world.fdTable) ++ s.world.fdTable := by
      rw [d2, k2, c5]
      exact filter_release (lowestFree s.world.fdTable)
        (pollerFds s.world (lowestFree s.world.fdTable)) s.world.fdTable
        (fun d hd => (hP d hd).1) ha
    refine ⟨?_, c3, ⟨_, _, c2, c4, g1, rfl, ?_, ha, c5, ?_, ?_, ?_, ?_, hP, hT⟩, ?_, ?_⟩
    · rw [Configure_second_fails s err h1 h2]
    · rw [c5]; simp
    · rw [Done_trace, c2, c3]; rfl
    · rw [d2, k3, c4, set_append_single]
      exact getElem?_append_single _ _
    · intro hc
      rw [d1, hc]
      rfl
    · rw [hT]
      simp only [List.mem_append, not_or]
      exact ⟨fun h => (hP _ h).1 rfl, ha⟩
    · intro hp
      rw [hT, pollerFds_of_init _ _ hp]
      rfl
    · intro hp
      obtain ⟨ep, ev, q1, q2, q3, q4⟩ :=
        pollerFds_uninit s.world (lowestFree s.world.fdTable) hp
      exact ⟨ep, ev, q1, q2, q3, by rw [hT, q4]; rfl⟩

set_option maxRecDepth 100000 in
/-- Witness for C10, amended: in the fresh process where only the second `open` fails, the
hypotheses hold and `Configure` leaves `taskRankingResultsLogFile` nil. -/
theorem Done_closes_file_of_failed_Configure_witness :
    (Configure (initState (failingAt 1 13))).2.taskRankingResultsLogFile = none :=
  (Done_closes_file_of_failed_Configure (initState (failingAt 1 13))
    (GoError.wrap
      (GoError.pathError "open" "task_ranking_results_1600000000123456789.log" (Cause.errno 13))
      "failed to create task ranker log file")
    (by decide) (by decide)).2.1

/-! ## Claims about routing -/

/-- C6 as stated fails for a record that carries both `stage` and `task_ranking_results`:
of the two hooks that `Configure` registers in the sample world, the second (the JSON hook of
the ranking-results log file) selects that record as well as the first. -/
theorem stage_record_selected_by_results_hook :
    "stage" ∈ ["stage", "task_ranking_results"] ∧
    (Configure (initState sampleWorld)).2.log.Hooks.map
      (fun h => h.selects ["stage", "task_ranking_results"]) = [true, true] := by
  decide

/-- C6, amended: after a successful `Configure` the two hooks appended to the logger have
non-empty, disjoint selector lists; under the selection predicate the text hook selects a
record iff its fields contain `stage`, `query` or `query_result`, and the JSON hook selects
it iff its fields contain `task_ranking_results`.  Hence a record with field `stage` and
without field `task_ranking_results` is selected for the task-ranker log file and not for the
ranking-results log file, and a record with none of the four fields is selected by neither
hook. -/
theorem configured_hooks_routing (s : State) (keys : List String)
    (h1 : (createTaskRankerLogFile (time.Now s.world) s.world).1.2 = none)
    (h2 : (createTaskRankingResultsLogFile (time.Now s.world)
      (createTaskRankerLogFile (time.Now s.world) s.world).2).1.2 = none) :
    ∃ hText hJson : WriterHook,
      (Configure s).2.log.Hooks = s.log.Hooks ++ [hText, hJson] ∧
      hText.writer = (Configure s).2.taskRankerLogFile ∧
      hJson.writer = (Configure s).2.taskRankingResultsLogFile ∧
      hText.selectors ≠ [] ∧ hJson.selectors ≠ [] ∧
      (∀ k, k ∈ hText.selectors → k ∉ hJson.selectors) ∧
      (hText.selects keys = true ↔
        "stage" ∈ keys ∨ "query" ∈ keys ∨ "query_result" ∈ keys) ∧
      (hJson.selects keys = true ↔ "task_ranking_results" ∈ keys) ∧
      ("stage" ∈ keys → "task_ranking_results" ∉ keys →
        hText.selects keys = true ∧ hJson.selects keys = false) ∧
      ("stage" ∉ keys → "query" ∉ keys → "query_result" ∉ keys →
        "task_ranking_results" ∉ keys →
        hText.selects keys = false ∧ hJson.selects keys = false) := by
  rw [Configure_succeeds s h1 h2]
  refine ⟨_, _, rfl, rfl, rfl, ?_, ?_, ?_, ?_, ?_, ?_, ?_⟩
  · simp
  · simp
  · intro k hk hj
    simp only [List.mem_cons, List.mem_singleton, List.not_mem_nil, or_false] at hk hj
    subst hj
    rcases hk with h | h | h <;> exact absurd h (by decide)
  · simp [WriterHook.selects]
  · simp [WriterHook.selects]
  · intro a b
    simp [WriterHook.selects, a, b]
  · intro a b c d
    simp [WriterHook.selects, a, b, c, d]

/-- Witness for C6, amended: in the sample world a record whose only field is `stage` is
selected by the first hook and not by the second. -/
theorem configured_hooks_routing_witness :
    (Configure (initState sampleWorld)).2.log.Hooks.map (fun h => h.selects ["stage"]) =
      [true, false] := by
  obtain ⟨hText, hJson, e, _, _, _, _, _, _, _, r, _⟩ :=
    configured_hooks_routing (initState sampleWorld) ["stage"] (by decide) (by decide)
  obtain ⟨r1, r2⟩ := r (by decide) (by decide)
  rw [e]
  simp [initState, logrus.New, r1, r2]

end Logger
